import Mathlib

/-!
Verification development for the multi-agent presentation builder
(src/multi_agent_presentation.py).

The program builds a slide-deck document from free-form input text by
repeatedly asking an external language model which agent to run next
(orchestrator_agent), running that agent, and writing its artifact into a
shared state dictionary, until the orchestrator declares the process ended
and all required artifacts are present.

Modelling conventions used throughout this file:

- The external services are modelled as response streams inside a `Ports`
  record: `gen` is the chat-completion service (one shared stream consumed
  by the orchestrator and by every text agent, indexed by a global call
  counter), `judge` is the vision relevance check of image_checker_agent
  (`none` models a service exception, which the source catches and turns
  into `False`), and `search` is the Google image search (`none` models a
  response JSON without an "items" key, `some links` a response with one).
  Prompt contents do not influence the streams, so prompt text is not
  modelled.
- Python string values are Lean `String`; a Python variable that may hold
  either a string or `None` is `Option String` with `none` for `None`.
- `xml.etree.ElementTree` elements are modelled by the inductive `XML`
  (tag, leading text, children).  `parseXML` models `ET.fromstring` as a
  total function into `Option XML`: it accepts a single root element with
  nested elements and interleaved text, and rejects the empty string,
  strings not starting with a tag, unbalanced or mismatched tags.
  Attributes, comments, declarations and entity decoding are not modelled;
  no behaviour relevant to the claims depends on them.
- Unbounded `while True` retry loops are modelled with an explicit fuel
  argument; fuel exhaustion is a distinguished result that represents the
  loop still running, never a result the Python program could return.
-/

/-- Element-tree model: tag name, text before the first child, children. -/
inductive XML where
  | elem (tag : String) (text : String) (children : List XML)

def XML.tag : XML → String
  | .elem t _ _ => t

def XML.children : XML → List XML
  | .elem _ _ cs => cs

/-- Characters that end a tag name in the parser. -/
def nameStop (c : Char) : Bool :=
  c = '>' || c = '<' || c = '/'

/-- Read a tag name: the longest run of characters not in the stop set. -/
def readName : List Char → List Char × List Char
  | [] => ([], [])
  | c :: cs =>
    if nameStop c then ([], c :: cs)
    else
      let (n, r) := readName cs
      (c :: n, r)

/-- Read text content up to the next tag opener. -/
def readText : List Char → List Char × List Char
  | [] => ([], [])
  | c :: cs =>
    if c = '<' then ([], c :: cs)
    else
      let (t, r) := readText cs
      (c :: t, r)

def isSpaceChar (c : Char) : Bool :=
  c = ' ' || c = '\n' || c = '\t' || c = '\r'

def skipWs : List Char → List Char
  | [] => []
  | c :: cs => if isSpaceChar c then skipWs cs else c :: cs

/-- Parse a sequence of sibling elements, stopping (without consuming) at a
closing tag or at the end of input.  Text between siblings is consumed and
discarded; the text directly after an opening tag becomes the element's
text.  `fuel` bounds the recursion depth. -/
def pSeq (fuel : Nat) (cs : List Char) : Option (List XML × List Char) :=
  match cs with
  | [] => some ([], [])
  | '<' :: '/' :: r => some ([], '<' :: '/' :: r)
  | '<' :: r =>
    match fuel with
    | 0 => none
    | f + 1 =>
      let (nm, r1) := readName r
      if nm.isEmpty then none
      else
        match r1 with
        | '>' :: r2 =>
          let (txt, r3) := readText r2
          match pSeq f r3 with
          | some (kids, r4) =>
            match r4 with
            | '<' :: '/' :: r5 =>
              let (nm2, r6) := readName r5
              if nm2 = nm then
                match r6 with
                | '>' :: r7 =>
                  let (_tail, r8) := readText r7
                  match pSeq f r8 with
                  | some (sibs, r9) =>
                    some (XML.elem (String.mk nm) (String.mk txt) kids :: sibs, r9)
                  | none => none
                | _ => none
              else none
            | _ => none
          | none => none
        | _ => none
  | _ => none

/-- Model of ET.fromstring: parse a whole string as a single root element. -/
def parseXML (s : String) : Option XML :=
  match pSeq (s.length + 1) (skipWs s.data) with
  | some ([x], rest) => if rest.isEmpty then some x else none
  | _ => none

mutual
/-- Model of ET.tostring on a single element: tag, leading text, children. -/
def xmlToString : XML → String
  | .elem tag txt kids => "<" ++ tag ++ ">" ++ txt ++ serializeL kids ++ "</" ++ tag ++ ">"
/-- Serialize a list of sibling elements in order. -/
def serializeL : List XML → String
  | [] => ""
  | x :: xs => xmlToString x ++ serializeL xs
end

example : parseXML "" = none := rfl
example : parseXML "not xml" = none := rfl
example : parseXML "<a></a>" = some (XML.elem "a" "" []) := rfl
example : parseXML "<a><b></b></a>" = some (XML.elem "a" "" [XML.elem "b" "" []]) := rfl
example : parseXML "<a>t<b>u</b></a>" = some (XML.elem "a" "t" [XML.elem "b" "u" []]) := rfl
example : parseXML "<a><b></c></a>" = none := rfl
example : parseXML "<a>" = none := rfl
example : xmlToString (XML.elem "a" "t" [XML.elem "b" "u" []]) = "<a>t<b>u</b></a>" := rfl

/-- Model of xml.sax.saxutils.escape applied characterwise: the source
replaces the ampersand first, then the angle brackets, which is equivalent
to this single pass. -/
def escapeChar (c : Char) : List Char :=
  if c = '&' then ['&', 'a', 'm', 'p', ';']
  else if c = '<' then ['&', 'l', 't', ';']
  else if c = '>' then ['&', 'g', 't', ';']
  else [c]

def escapeXml : List Char → List Char
  | [] => []
  | c :: cs => escapeChar c ++ escapeXml cs

/-- Model of xml.sax.saxutils.escape on strings. -/
def escape (s : String) : String :=
  String.mk (escapeXml s.data)

/-- External services, modelled as response streams: `gen` is the chat
completion service shared by the orchestrator and all text agents (indexed
by a global call counter), `judge` is the vision call made by
image_checker_agent (`none` models a raised service exception), and
`search` is the image search request (`none` models a response without an
"items" key, `some links` one with the listed image links). -/
structure Ports where
  gen : Nat → String
  judge : Nat → Option String
  search : String → Option (List String)

/-- How many calls have been made so far on the `gen` and `judge` streams. -/
structure Counters where
  g : Nat
  j : Nat

/-- The shared state dictionary created by get_initial_state.  The `image`
slot is `Option String` because the orchestration loop can store the
Python value None into it (see image_finder_agent); `some s` models the
string s and `none` models None. -/
structure DocState where
  input_text : String
  slides : String
  enriched_slides : String
  title : String
  quiz : String
  image : Option String

/-- get_initial_state: every artifact slot starts as the empty string. -/
def get_initial_state (text : String) : DocState :=
  { input_text := text, slides := "", enriched_slides := "", title := "",
    quiz := "", image := some "" }

/-- image_checker_agent: one vision call; a raised service exception is
caught and yields False, otherwise the result is the comparison of the
response with the literal token True. -/
def image_checker_agent (ports : Ports) (j : Nat) : Bool × Nat :=
  match ports.judge j with
  | none => (false, j + 1)
  | some r => (r = "True", j + 1)

/-- The candidate iteration of image_finder_agent: escape the link, judge
it, return the wrapped artifact on the first acceptable candidate,
otherwise try the next.  Falling off the end of the loop returns the
Python value None, modelled as `none`. -/
def findImageLoop (ports : Ports) (j : Nat) : List String → Option String × Nat
  | [] => (none, j)
  | url :: rest =>
    let escaped_url := escape url
    let (image_ok, j1) := image_checker_agent ports j
    if image_ok then (some ("<image>" ++ escaped_url ++ "</image>"), j1)
    else findImageLoop ports j1 rest

/-- image_finder_agent: precondition check on enriched_slides, then one
gen call for the search query, then the search request; with an "items"
key the candidate loop runs, without one the agent returns the empty
string. -/
def image_finder_agent (ports : Ports) (c : Counters) (state : DocState) :
    Option String × Counters :=
  if state.enriched_slides = "" then (some "", c)
  else
    let search_query := ports.gen c.g
    let g1 := c.g + 1
    match ports.search search_query with
    | some items =>
      let (r, j1) := findImageLoop ports c.j items
      (r, ⟨g1, j1⟩)
    | none => (some "", ⟨g1, c.j⟩)

/-- quiz_creator_agent: precondition check on enriched_slides, then a
single gen call whose response text is returned as is, with no parsing,
validation or retry. -/
def quiz_creator_agent (ports : Ports) (c : Counters) (state : DocState) :
    String × Counters :=
  if state.enriched_slides = "" then ("", c)
  else (ports.gen c.g, ⟨c.g + 1, c.j⟩)

/-- title_creator_agent: precondition check on enriched_slides, then a
single gen call whose response text is returned as is, with no parsing,
validation or retry. -/
def title_creator_agent (ports : Ports) (c : Counters) (state : DocState) :
    String × Counters :=
  if state.enriched_slides = "" then ("", c)
  else (ports.gen c.g, ⟨c.g + 1, c.j⟩)

/-- The while True retry loop shared by slide_creator_agent (on the whole
response) and slide_enricher_agent (per slide): call gen, try to parse,
return the first response that parses, retrying otherwise.  Fuel
exhaustion (`none`) models the loop still running. -/
def parse_retry_loop (ports : Ports) (fuel g : Nat) : Option (XML × Nat) :=
  match fuel with
  | 0 => none
  | f + 1 =>
    match parseXML (ports.gen g) with
    | some x => some (x, g + 1)
    | none => parse_retry_loop ports f (g + 1)

/-- The while True loop of slide_creator_agent: call gen, try to parse the
response, and return the raw response text of the first response that
parses, retrying otherwise.  Fuel exhaustion (`none`) models the loop
still running. -/
def gen_validate_loop (ports : Ports) (fuel g : Nat) : Option (String × Nat) :=
  match fuel with
  | 0 => none
  | f + 1 =>
    match parseXML (ports.gen g) with
    | some _ => some (ports.gen g, g + 1)
    | none => gen_validate_loop ports f (g + 1)

/-- slide_creator_agent: no precondition check; retry gen until the
response parses, then return the raw response text (the source returns the
message content, not the parsed tree). -/
def slide_creator_agent (ports : Ports) (fuel : Nat) (c : Counters)
    (_state : DocState) : Option (String × Counters) :=
  match gen_validate_loop ports fuel c.g with
  | some (r, g1) => some (r, ⟨g1, c.j⟩)
  | none => none

/-- Result of the slide enricher (and of an orchestration-loop iteration
that can raise): `err` models a raised exception, `spin` models an
unbounded retry loop that has not terminated within the model fuel. -/
inductive EnrichRes (α : Type) where
  | err
  | spin
  | ok (a : α) (c : Counters)

/-- The per-slide iteration of slide_enricher_agent: for each entry of the
parsed outline, run the generate-and-parse retry loop once and collect the
parsed elements in order.  An entry's element is appended only after its
own loop succeeds; earlier entries are never revisited. -/
def enrich_entries (ports : Ports) (fuel : Nat) :
    Nat → List XML → Option (List XML × Nat)
  | g, [] => some ([], g)
  | g, _entry :: rest =>
    match parse_retry_loop ports fuel g with
    | none => none
    | some (x, g1) =>
      match enrich_entries ports fuel g1 rest with
      | none => none
      | some (xs, g2) => some (x :: xs, g2)

/-- slide_enricher_agent before the final ET.tostring: parse the slides
slot (a failure here is a raised ParseError, uncaught by the agent), then
enrich every child of the outline root in order and collect the parsed
results as the children of a fresh slides element. -/
def slide_enricher_core (ports : Ports) (fuel : Nat) (c : Counters)
    (state : DocState) : EnrichRes XML :=
  match parseXML state.slides with
  | none => .err
  | some root =>
    match enrich_entries ports fuel c.g root.children with
    | none => .spin
    | some (xs, g1) => .ok (XML.elem "slides" "" xs) ⟨g1, c.j⟩

/-- slide_enricher_agent: the enriched tree serialized with ET.tostring. -/
def slide_enricher_agent (ports : Ports) (fuel : Nat) (c : Counters)
    (state : DocState) : EnrichRes String :=
  match slide_enricher_core ports fuel c state with
  | .err => .err
  | .spin => .spin
  | .ok tree c1 => .ok (xmlToString tree) c1

/-- orchestrator_agent: one gen call whose response text is the decision,
returned verbatim. -/
def orchestrator_agent (ports : Ports) (c : Counters) (_state : DocState) :
    String × Counters :=
  (ports.gen c.g, ⟨c.g + 1, c.j⟩)

/-- Python-faithful list insert: list.insert clamps the index to the list
length. -/
def pyInsert (xs : List XML) (i : Nat) (x : XML) : List XML :=
  xs.take i ++ x :: xs.drop i

/-- The assembly block of create_presentation (the completion branch):
parse the enriched slides, insert the parsed title at index 0 and the
parsed image at index 1, append the parsed quiz, and return the resulting
tree.  `none` models a raised exception (a parse failure on one of the
slots, or ET.fromstring applied to the Python value None), which in the
source propagates out of create_presentation uncaught. -/
def assembleTree (state : DocState) : Option XML :=
  match state.image with
  | none => none
  | some imageStr =>
    match parseXML state.enriched_slides, parseXML state.title,
        parseXML imageStr, parseXML state.quiz with
    | some slides, some titleElem, some imageElem, some quizElem =>
      some (XML.elem slides.tag ""
        (pyInsert (pyInsert slides.children 0 titleElem) 1 imageElem ++ [quizElem]))
    | _, _, _, _ => none

/-- An entry of the memory list: role and content; the content is the
Python value stored (possibly None). -/
structure MemEntry where
  role : String
  content : Option String

/-- The loop-carried data of create_presentation: the state dictionary,
the memory list, the response variable (`none` while still unbound, then
`some v` where v is the Python value last assigned), and the stream
counters. -/
structure LoopSt where
  state : DocState
  memory : List MemEntry
  response : Option (Option String)
  c : Counters

/-- Outcome of one iteration of the while True loop of
create_presentation. -/
inductive StepOut where
  | ret (doc : String)
  | halt
  | fatal
  | spin
  | next (ls : LoopSt)

/-- One iteration of the while True loop of create_presentation, lines
368 to 473 of the source.  Branches in source order: the End process
branch first (completion check with its corrective notes, or assembly and
return), then the dispatch chain Slide creator, Slide enricher, Quiz
creator, Title creator, Image finder, each followed by the shared
memory.append of the response; a decision matching no branch reaches that
append with the response variable from the previous iteration, which
raises NameError on the first iteration (caught by the surrounding
except, which breaks out of the loop, modelled as halt). -/
def loop_step (ports : Ports) (fuel : Nat) (ls : LoopSt) : StepOut :=
  let (next_agent, c1) := orchestrator_agent ports ls.c ls.state
  if next_agent = "End process" then
    if ls.state.enriched_slides = "" ∨ ls.state.title = "" ∨
        ls.state.image = some "" ∨ ls.state.quiz = "" then
      let note :=
        if ls.state.enriched_slides = "" then
          "The presentation is not complete. Please finish enriched slides."
        else if ls.state.title = "" then
          "The presentation is not complete. Please finish the title."
        else if ls.state.image = some "" then
          "The presentation is not complete. Please find an image."
        else
          "The presentation is not complete. Please create a quiz."
      .next { ls with memory := ls.memory ++ [⟨"user", some note⟩], c := c1 }
    else
      match assembleTree ls.state with
      | some doc => .ret (xmlToString doc)
      | none => .fatal
  else if next_agent = "Slide creator" then
    match slide_creator_agent ports fuel c1 ls.state with
    | none => .spin
    | some (r, c2) =>
      .next { state := { ls.state with slides := r },
              memory := ls.memory ++ [⟨"assistant", some r⟩],
              response := some (some r), c := c2 }
  else if next_agent = "Slide enricher" then
    match slide_enricher_agent ports fuel c1 ls.state with
    | .err => .halt
    | .spin => .spin
    | .ok r c2 =>
      .next { state := { ls.state with enriched_slides := r },
              memory := ls.memory ++ [⟨"assistant", some r⟩],
              response := some (some r), c := c2 }
  else if next_agent = "Quiz creator" then
    let (r, c2) := quiz_creator_agent ports c1 ls.state
    if r = "" then
      let m := "Quiz creator failed to generate a quiz. Please create enriched slides first."
      .next { ls with
              memory := ls.memory ++ [⟨"assistant", some m⟩],
              response := some (some m), c := c2 }
    else
      .next { state := { ls.state with quiz := r },
              memory := ls.memory ++ [⟨"assistant", some r⟩],
              response := some (some r), c := c2 }
  else if next_agent = "Title creator" then
    let (r, c2) := title_creator_agent ports c1 ls.state
    if r = "" then
      let m := "Title creator failed to generate a title. Please create enriched slides first."
      .next { ls with
              memory := ls.memory ++ [⟨"assistant", some m⟩],
              response := some (some m), c := c2 }
    else
      .next { state := { ls.state with title := r },
              memory := ls.memory ++ [⟨"assistant", some r⟩],
              response := some (some r), c := c2 }
  else if next_agent = "Image finder" then
    let (r, c2) := image_finder_agent ports c1 ls.state
    if r = some "" then
      let m := "Image finder failed to find an image. Please create enriched slides first."
      .next { ls with
              memory := ls.memory ++ [⟨"assistant", some m⟩],
              response := some (some m), c := c2 }
    else
      .next { state := { ls.state with image := r },
              memory := ls.memory ++ [⟨"assistant", r⟩],
              response := some r, c := c2 }
  else
    match ls.response with
    | none => .halt
    | some r => .next { ls with memory := ls.memory ++ [⟨"assistant", r⟩], c := c1 }

/-- Result of a whole run of create_presentation: a returned document, an
abort through break (the source then returns None), an uncaught exception,
a retry loop that never terminated, or model fuel running out on the outer
loop. -/
inductive RunRes where
  | doc (s : String)
  | aborted
  | fatalErr
  | spinRes
  | fuelOut

/-- Iterate loop_step. -/
def runLoop (ports : Ports) (afuel : Nat) : Nat → LoopSt → RunRes
  | 0, _ => .fuelOut
  | n + 1, ls =>
    match loop_step ports afuel ls with
    | .ret doc => .doc doc
    | .halt => .aborted
    | .fatal => .fatalErr
    | .spin => .spinRes
    | .next ls1 => runLoop ports afuel n ls1

/-- create_presentation: initial state, empty memory, unbound response
variable, fresh stream counters. -/
def create_presentation (ports : Ports) (afuel lfuel : Nat)
    (input_text : String) : RunRes :=
  runLoop ports afuel lfuel
    { state := get_initial_state input_text, memory := [], response := none,
      c := ⟨0, 0⟩ }

/-- Number of question children of a parsed quiz artifact; 0 when the
artifact does not parse. -/
def quiz_question_count (s : String) : Nat :=
  match parseXML s with
  | some root => (root.children.filter (fun k => XML.tag k = "question")).length
  | none => 0

/-! ### Helper lemmas -/

theorem data_append (a b : String) : (a ++ b).data = a.data ++ b.data := rfl

theorem escapeChar_no_angle (c : Char) :
    '<' ∉ escapeChar c ∧ '>' ∉ escapeChar c := by
  by_cases h1 : c = '&'
  · simp [escapeChar, h1]
  · by_cases h2 : c = '<'
    · simp [escapeChar, h1, h2]
    · by_cases h3 : c = '>'
      · simp [escapeChar, h1, h2, h3]
      · simp [escapeChar, h1, h2, h3]
        exact ⟨fun h => h2 h.symm, fun h => h3 h.symm⟩

theorem escapeXml_no_angle (l : List Char) :
    '<' ∉ escapeXml l ∧ '>' ∉ escapeXml l := by
  induction l with
  | nil => simp [escapeXml]
  | cons c cs ih =>
    have hc := escapeChar_no_angle c
    simp only [escapeXml, List.mem_append]
    constructor
    · rintro (h | h)
      · exact hc.1 h
      · exact ih.1 h
    · rintro (h | h)
      · exact hc.2 h
      · exact ih.2 h

theorem readText_no_lt (l : List Char) (h : '<' ∉ l) (rest : List Char) :
    readText (l ++ '<' :: rest) = (l, '<' :: rest) := by
  induction l with
  | nil => simp [readText]
  | cons c cs ih =>
    have hc : c ≠ '<' := fun he => h (he ▸ List.mem_cons_self c cs)
    have hcs : '<' ∉ cs := fun hm => h (List.mem_cons_of_mem c hm)
    simp [readText, hc, ih hcs]

theorem readName_image (rest : List Char) :
    readName ('i' :: 'm' :: 'a' :: 'g' :: 'e' :: '>' :: rest) =
      (['i', 'm', 'a', 'g', 'e'], '>' :: rest) := by
  simp [readName, nameStop]

theorem pSeq_nil (f : Nat) : pSeq f [] = some ([], []) := by
  unfold pSeq
  rfl

theorem pSeq_close (f : Nat) (r : List Char) :
    pSeq f ('<' :: '/' :: r) = some ([], '<' :: '/' :: r) := by
  unfold pSeq
  rfl

theorem readText_nil : readText [] = ([], []) := rfl

/-- Parsing one childless image element with arbitrary text free of angle
brackets. -/
theorem pSeq_image (f : Nat) (txt : List Char) (h : '<' ∉ txt) :
    pSeq (f + 1) ('<' :: 'i' :: 'm' :: 'a' :: 'g' :: 'e' :: '>' ::
      (txt ++ '<' :: '/' :: 'i' :: 'm' :: 'a' :: 'g' :: 'e' :: '>' :: [])) =
    some ([XML.elem "image" (String.mk txt) []], []) := by
  have hrt := readText_no_lt txt h
    ('/' :: 'i' :: 'm' :: 'a' :: 'g' :: 'e' :: '>' :: [])
  conv_lhs => whnf
  rw [hrt, pSeq_close]
  conv_lhs => whnf
  rw [pSeq_nil]

/-- The wrapped escaped artifact built by image_finder_agent always parses
back to an image element whose text is the escaped link. -/
theorem parse_image_wrapped (u : String) :
    parseXML ("<image>" ++ escape u ++ "</image>") =
      some (XML.elem "image" (escape u) []) := by
  have hnolt : '<' ∉ escapeXml u.data := (escapeXml_no_angle u.data).1
  unfold parseXML
  have hdata : ("<image>" ++ escape u ++ "</image>").data =
      '<' :: 'i' :: 'm' :: 'a' :: 'g' :: 'e' :: '>' ::
        (escapeXml u.data ++ '<' :: '/' :: 'i' :: 'm' :: 'a' :: 'g' :: 'e' :: '>' :: []) := by
    simp [data_append, escape, List.append_assoc]
  rw [hdata]
  rw [show skipWs ('<' :: 'i' :: 'm' :: 'a' :: 'g' :: 'e' :: '>' ::
        (escapeXml u.data ++ '<' :: '/' :: 'i' :: 'm' :: 'a' :: 'g' :: 'e' :: '>' :: [])) =
      '<' :: 'i' :: 'm' :: 'a' :: 'g' :: 'e' :: '>' ::
        (escapeXml u.data ++ '<' :: '/' :: 'i' :: 'm' :: 'a' :: 'g' :: 'e' :: '>' :: []) from rfl]
  rw [pSeq_image _ _ hnolt]
  rfl

/-- Every non-None result of the candidate loop is the escaped wrap of one
of the candidate links. -/
theorem findImageLoop_wrapped (ports : Ports) :
    ∀ (items : List String) (j : Nat) (r : String) (j1 : Nat),
      findImageLoop ports j items = (some r, j1) →
      ∃ u, r = "<image>" ++ escape u ++ "</image>" := by
  intro items
  induction items with
  | nil =>
    intro j r j1 h
    simp [findImageLoop] at h
  | cons url rest ih =>
    intro j r j1 h
    unfold findImageLoop at h
    rcases hic : image_checker_agent ports j with ⟨ok, j2⟩
    rw [hic] at h
    cases ok with
    | true =>
      simp only [if_pos] at h
      simp at h
      exact ⟨url, h.1.symm⟩
    | false =>
      simp at h
      exact ih _ _ _ h

theorem gen_validate_loop_succ (ports : Ports) (f g : Nat) :
    gen_validate_loop ports (f + 1) g =
      match parseXML (ports.gen g) with
      | some _ => some (ports.gen g, g + 1)
      | none => gen_validate_loop ports f (g + 1) := by
  conv_lhs => whnf

theorem parse_retry_loop_succ (ports : Ports) (f g : Nat) :
    parse_retry_loop ports (f + 1) g =
      match parseXML (ports.gen g) with
      | some x => some (x, g + 1)
      | none => parse_retry_loop ports f (g + 1) := by
  conv_lhs => whnf

/-- The slide creator returns only response texts that parse. -/
theorem gen_validate_loop_validated (ports : Ports) :
    ∀ fuel g r g2, gen_validate_loop ports fuel g = some (r, g2) →
      ∃ x, parseXML r = some x := by
  intro fuel
  induction fuel with
  | zero =>
    intro g r g2 h
    simp [gen_validate_loop] at h
  | succ f ih =>
    intro g r g2 h
    rw [gen_validate_loop_succ] at h
    rcases hp : parseXML (ports.gen g) with _ | x
    · rw [hp] at h
      exact ih _ _ _ h
    · rw [hp] at h
      simp at h
      exact ⟨x, h.1 ▸ hp⟩

/-- A successful per-entry retry returns the parse of some response at or
after the starting position, consuming the stream up to it. -/
theorem parse_retry_loop_spec (ports : Ports) :
    ∀ fuel g x g2, parse_retry_loop ports fuel g = some (x, g2) →
      ∃ k, g ≤ k ∧ g2 = k + 1 ∧ parseXML (ports.gen k) = some x := by
  intro fuel
  induction fuel with
  | zero =>
    intro g x g2 h
    simp [parse_retry_loop] at h
  | succ f ih =>
    intro g x g2 h
    rw [parse_retry_loop_succ] at h
    rcases hp : parseXML (ports.gen g) with _ | y
    · rw [hp] at h
      obtain ⟨k, hk1, hk2, hk3⟩ := ih _ _ _ h
      exact ⟨k, by omega, hk2, hk3⟩
    · rw [hp] at h
      simp at h
      exact ⟨g, le_refl g, h.2.symm, h.1 ▸ hp⟩

/-- The per-entry enrichment produces one element per outline entry, each
the parse of some response from the starting position on. -/
theorem enrich_entries_spec (ports : Ports) (fuel : Nat) :
    ∀ (entries : List XML) (g : Nat) (out : List XML) (g2 : Nat),
      enrich_entries ports fuel g entries = some (out, g2) →
      out.length = entries.length ∧
        ∀ e ∈ out, ∃ k, g ≤ k ∧ parseXML (ports.gen k) = some e := by
  intro entries
  induction entries with
  | nil =>
    intro g out g2 h
    simp [enrich_entries] at h
    rcases h with ⟨h1, _h2⟩
    subst h1
    simp
  | cons entry rest ih =>
    intro g out g2 h
    unfold enrich_entries at h
    rcases hr : parse_retry_loop ports fuel g with _ | ⟨x, g1⟩
    · rw [hr] at h
      simp at h
    · rw [hr] at h
      simp only [] at h
      rcases he : enrich_entries ports fuel g1 rest with _ | ⟨xs, g3⟩
      · rw [he] at h
        simp at h
      · rw [he] at h
        simp at h
        rcases h with ⟨h1, _h2⟩
        obtain ⟨k0, hk0, hg1, hpk0⟩ := parse_retry_loop_spec ports fuel g x g1 hr
        obtain ⟨hlen, hmem⟩ := ih g1 xs g3 he
        subst h1
        refine ⟨by simp [hlen], ?_⟩
        intro e he2
        rcases List.mem_cons.mp he2 with h | h
        · exact ⟨k0, hk0, h ▸ hpk0⟩
        · obtain ⟨k, hk1, hk2⟩ := hmem e h
          exact ⟨k, by omega, hk2⟩

/-! ### Claims -/

/-- Ports whose streams are never consulted by the scenarios using them. -/
def silentPorts : Ports :=
  { gen := fun _ => "", judge := fun _ => none, search := fun _ => none }

/-- Claim C2, amended: for every Document State whose outline slot is
empty, the enrichment step raises a parse fault (modelled as err) without
contacting the Generation Port; the orchestration loop catches it and
aborts the build.  The result is the same for every Ports value, so no
service is contacted. -/
theorem claim_C2_amended (ports : Ports) (fuel : Nat) (c : Counters)
    (st : DocState) (h : st.slides = "") :
    slide_enricher_agent ports fuel c st = .err := by
  unfold slide_enricher_agent slide_enricher_core
  rw [h]
  rfl

/-- Claim C2, witness for the amended theorem at a concrete input. -/
theorem claim_C2_witness :
    slide_enricher_agent silentPorts 1 ⟨0, 0⟩ (get_initial_state "seed") = .err :=
  claim_C2_amended silentPorts 1 ⟨0, 0⟩ (get_initial_state "seed") rfl

/-- Claim C2 is false as stated: on the initial state, whose outline slot
is empty, the enrichment step does not return the empty artifact; it
raises a parse fault. -/
theorem claim_C2_counterexample :
    slide_enricher_agent silentPorts 1 ⟨0, 0⟩ (get_initial_state "text") = .err ∧
      (get_initial_state "text").slides = "" ∧
      ∀ c2 : Counters, (EnrichRes.err : EnrichRes String) ≠ .ok "" c2 := by
  refine ⟨rfl, rfl, ?_⟩
  intro c2 hcontra
  cases hcontra

/-- Fixture for claim C3: a port that always answers with unparsable text,
and a state whose enriched_slides slot is non-empty. -/
def c3Ports : Ports :=
  { gen := fun _ => "not xml", judge := fun _ => none, search := fun _ => none }

def c3State : DocState :=
  { input_text := "i", slides := "", enriched_slides := "<slides></slides>",
    title := "", quiz := "", image := some "" }

/-- Claim C3 is false as stated: the quiz step accepts an unparsable
response on the first attempt, returning it without any schema check. -/
theorem claim_C3_counterexample :
    quiz_creator_agent c3Ports ⟨0, 0⟩ c3State = ("not xml", ⟨1, 0⟩) ∧
      parseXML "not xml" = none ∧ ("not xml" : String) ≠ "" :=
  ⟨rfl, rfl, by decide⟩

theorem gen_validate_loop_stub (ports : Ports) (fuel g : Nat)
    (h0 : parseXML (ports.gen g) = none)
    (h1 : parseXML (ports.gen (g + 1)) = none)
    (h2 : ∃ x, parseXML (ports.gen (g + 2)) = some x) :
    gen_validate_loop ports (fuel + 3) g = some (ports.gen (g + 2), g + 3) := by
  obtain ⟨x, hx⟩ := h2
  rw [show fuel + 3 = (fuel + 2) + 1 from rfl, gen_validate_loop_succ, h0,
    show fuel + 2 = (fuel + 1) + 1 from rfl, gen_validate_loop_succ, h1,
    gen_validate_loop_succ, show g + 1 + 1 = g + 2 from rfl, hx]

theorem parse_retry_loop_stub (ports : Ports) (fuel g : Nat) (x : XML)
    (h0 : parseXML (ports.gen g) = none)
    (h1 : parseXML (ports.gen (g + 1)) = none)
    (hx : parseXML (ports.gen (g + 2)) = some x) :
    parse_retry_loop ports (fuel + 3) g = some (x, g + 3) := by
  rw [show fuel + 3 = (fuel + 2) + 1 from rfl, parse_retry_loop_succ, h0,
    show fuel + 2 = (fuel + 1) + 1 from rfl, parse_retry_loop_succ, h1,
    parse_retry_loop_succ, show g + 1 + 1 = g + 2 from rfl, hx]

/-- Claim C3, amended: the outline step and the per-entry loop of the
enrichment step parse every response and retry with identical inputs until
a response parses (with the two-failures-then-success stub they succeed on
the third attempt and return only the validated text); the title and quiz
steps, by contrast, return the first response verbatim with no parsing or
retry. -/
theorem claim_C3_amended (ports : Ports) :
    (∀ fuel c st r c2, slide_creator_agent ports fuel c st = some (r, c2) →
        ∃ x, parseXML r = some x) ∧
    (∀ fuel (c : Counters) st, parseXML (ports.gen c.g) = none →
        parseXML (ports.gen (c.g + 1)) = none →
        (∃ x, parseXML (ports.gen (c.g + 2)) = some x) →
        slide_creator_agent ports (fuel + 3) c st =
          some (ports.gen (c.g + 2), ⟨c.g + 3, c.j⟩)) ∧
    (∀ fuel g x, parseXML (ports.gen g) = none →
        parseXML (ports.gen (g + 1)) = none →
        parseXML (ports.gen (g + 2)) = some x →
        parse_retry_loop ports (fuel + 3) g = some (x, g + 3)) ∧
    (∀ (c : Counters) st, st.enriched_slides ≠ "" →
        quiz_creator_agent ports c st = (ports.gen c.g, ⟨c.g + 1, c.j⟩) ∧
        title_creator_agent ports c st = (ports.gen c.g, ⟨c.g + 1, c.j⟩)) := by
  refine ⟨?_, ?_, ?_, ?_⟩
  · intro fuel c st r c2 h
    unfold slide_creator_agent at h
    rcases hv : gen_validate_loop ports fuel c.g with _ | ⟨r0, g1⟩
    · rw [hv] at h
      simp at h
    · rw [hv] at h
      simp at h
      exact h.1 ▸ gen_validate_loop_validated ports fuel c.g r0 g1 hv
  · intro fuel c st h0 h1 h2
    unfold slide_creator_agent
    rw [gen_validate_loop_stub ports fuel c.g h0 h1 h2]
  · intro fuel g x h0 h1 hx
    exact parse_retry_loop_stub ports fuel g x h0 h1 hx
  · intro c st h
    constructor
    · unfold quiz_creator_agent
      rw [if_neg h]
    · unfold title_creator_agent
      rw [if_neg h]

/-- Fixture for the C3 witness: two unparsable responses, then a valid
one. -/
def c3wPorts : Ports :=
  { gen := fun g => if g = 2 then "<a></a>" else "junk",
    judge := fun _ => none, search := fun _ => none }

/-- Claim C3, witness: on the stub the outline step succeeds on the third
attempt with the validated payload. -/
theorem claim_C3_witness :
    slide_creator_agent c3wPorts 9 ⟨0, 0⟩ (get_initial_state "w") =
      some ("<a></a>", ⟨3, 0⟩) :=
  (claim_C3_amended c3wPorts).2.1 6 ⟨0, 0⟩ (get_initial_state "w") rfl rfl
    ⟨XML.elem "a" "" [], rfl⟩

/-- Fixture for claim C8: the port answers with a quiz containing a single
question pair; the state has non-empty enriched_slides. -/
def c8Quiz : String :=
  "<quiz><question><question_text>q</question_text><answer>a</answer></question></quiz>"

def c8Ports : Ports :=
  { gen := fun _ => c8Quiz, judge := fun _ => none, search := fun _ => none }

def c8State : DocState :=
  { input_text := "i", slides := "", enriched_slides := "<slides></slides>",
    title := "", quiz := "", image := some "" }

/-- Claim C8 is false as stated: the quiz step returns a non-empty
artifact containing exactly one question pair, not three; nothing in the
step validates the pair count. -/
theorem claim_C8_counterexample :
    quiz_creator_agent c8Ports ⟨0, 0⟩ c8State = (c8Quiz, ⟨1, 0⟩) ∧
      c8Quiz ≠ "" ∧ quiz_question_count c8Quiz = 1 :=
  ⟨rfl, by decide, rfl⟩

/-- Claim C8, amended: whenever its precondition holds the quiz step
returns the Generation Port response verbatim, so a non-empty quiz
artifact carries no guarantee about its question count. -/
theorem claim_C8_amended (ports : Ports) (c : Counters) (st : DocState)
    (h : st.enriched_slides ≠ "") :
    quiz_creator_agent ports c st = (ports.gen c.g, ⟨c.g + 1, c.j⟩) := by
  unfold quiz_creator_agent
  rw [if_neg h]

/-- Claim C8, witness for the amended theorem at a concrete input. -/
theorem claim_C8_witness :
    quiz_creator_agent c8Ports ⟨5, 2⟩ c8State = (c8Quiz, ⟨6, 2⟩) :=
  claim_C8_amended c8Ports ⟨5, 2⟩ c8State (by decide)

/-- Fixtures for claim C4: a state ready for image search, and three port
configurations: every candidate rejected, no items key, and a list of
three candidates of which exactly the second is judged acceptable. -/
def c4State : DocState :=
  { input_text := "i", slides := "", enriched_slides := "<slides></slides>",
    title := "", quiz := "", image := some "" }

def c4aPorts : Ports :=
  { gen := fun _ => "query", judge := fun _ => some "False",
    search := fun _ => some ["u1"] }

def c4bPorts : Ports :=
  { gen := fun _ => "query", judge := fun _ => some "False",
    search := fun _ => none }

def c4cPorts : Ports :=
  { gen := fun _ => "query",
    judge := fun j => if j = 1 then some "True" else some "False",
    search := fun _ => some ["u1", "u2", "u3"] }

/-- Claim C4: the code slips on the all-rejected case.  With one candidate
that is rejected, the step falls off the candidate loop and returns the
Python value None instead of the empty string; with no items key it
returns the empty string as specified; with three candidates of which the
second is acceptable it returns the wrapped second candidate after exactly
two judgments, never evaluating the third. -/
theorem claim_C4_eval :
    image_finder_agent c4aPorts ⟨0, 0⟩ c4State = (none, ⟨1, 1⟩) ∧
      (none : Option String) ≠ some "" ∧
      image_finder_agent c4bPorts ⟨0, 0⟩ c4State = (some "", ⟨1, 0⟩) ∧
      image_finder_agent c4cPorts ⟨0, 0⟩ c4State =
        (some "<image>u2</image>", ⟨1, 2⟩) :=
  ⟨rfl, by decide, rfl, rfl⟩

/-- Fixtures for claim C6: an outline with one entry titled A, and a port
whose response is a valid slide titled B. -/
def c6Slides : String :=
  "<slides><slide><title>A</title><content>c</content></slide></slides>"

def c6Ports : Ports :=
  { gen := fun _ => "<slide><title>B</title><paragraph>p</paragraph></slide>",
    judge := fun _ => none, search := fun _ => none }

def c6State : DocState :=
  { input_text := "i", slides := c6Slides, enriched_slides := "",
    title := "", quiz := "", image := some "" }

/-- Claim C6 is false as stated: the enrichment step accepts a parsed
section whose title differs from the outline entry title; entry 0 of the
outline is titled A while section 0 of the output is titled B. -/
theorem claim_C6_counterexample :
    parseXML c6Slides =
      some (XML.elem "slides" ""
        [XML.elem "slide" "" [XML.elem "title" "A" [], XML.elem "content" "c" []]]) ∧
    slide_enricher_core c6Ports 1 ⟨0, 0⟩ c6State =
      .ok (XML.elem "slides" ""
        [XML.elem "slide" "" [XML.elem "title" "B" [], XML.elem "paragraph" "p" []]])
        ⟨1, 0⟩ ∧
    ("B" : String) ≠ "A" :=
  ⟨rfl, rfl, by decide⟩

/-- Claim C6, amended: the enrichment step yields exactly one enriched
section per outline entry, produced in entry order by running the
generate-and-parse retry loop once per entry (so the section count equals
the entry count and every section is a parsed response); the section
titles are whatever the port returned and are not checked against the
outline entry titles. -/
theorem claim_C6_amended (ports : Ports) (fuel : Nat) (c : Counters)
    (st : DocState) (root : XML) (out : List XML) (c2 : Counters)
    (hp : parseXML st.slides = some root)
    (he : slide_enricher_core ports fuel c st = .ok (XML.elem "slides" "" out) c2) :
    out.length = root.children.length ∧
      ∀ e ∈ out, ∃ k, c.g ≤ k ∧ parseXML (ports.gen k) = some e := by
  unfold slide_enricher_core at he
  rw [hp] at he
  simp only [] at he
  rcases hee : enrich_entries ports fuel c.g root.children with _ | ⟨xs, g1⟩
  · rw [hee] at he
    simp at he
  · rw [hee] at he
    simp only [EnrichRes.ok.injEq, XML.elem.injEq] at he
    obtain ⟨⟨_, _, hxs⟩, _⟩ := he
    subst hxs
    exact enrich_entries_spec ports fuel root.children c.g xs g1 hee

/-- Claim C6, witness for the amended theorem at a concrete input. -/
theorem claim_C6_witness :
    ([XML.elem "slide" "" [XML.elem "title" "B" [], XML.elem "paragraph" "p" []]].length =
      [XML.elem "slide" "" [XML.elem "title" "A" [], XML.elem "content" "c" []]].length) ∧
      ∀ e ∈ [XML.elem "slide" "" [XML.elem "title" "B" [], XML.elem "paragraph" "p" []]],
        ∃ k, 0 ≤ k ∧ parseXML (c6Ports.gen k) = some e :=
  claim_C6_amended c6Ports 1 ⟨0, 0⟩ c6State
    (XML.elem "slides" ""
      [XML.elem "slide" "" [XML.elem "title" "A" [], XML.elem "content" "c" []]])
    [XML.elem "slide" "" [XML.elem "title" "B" [], XML.elem "paragraph" "p" []]]
    ⟨1, 0⟩ rfl rfl

/-- Claim C7: for every Document State whose four artifacts parse, the
assembly block produces one document whose children are, in order, the
title, the image, the stored enriched sections, and the quiz. -/
theorem claim_C7 (st : DocState) (istr : String) (slidesRoot ttl img qz : XML)
    (hi : st.image = some istr)
    (hs : parseXML st.enriched_slides = some slidesRoot)
    (ht : parseXML st.title = some ttl)
    (hm : parseXML istr = some img)
    (hq : parseXML st.quiz = some qz) :
    assembleTree st =
      some (XML.elem slidesRoot.tag ""
        (ttl :: img :: slidesRoot.children ++ [qz])) := by
  unfold assembleTree
  rw [hi]
  simp only []
  rw [hs, ht, hm, hq]
  simp only []
  simp [pyInsert]

/-- Claim C7, witness: the spec example with title T, image I, sections S1
and S2, quiz Q assembles to child order T, I, S1, S2, Q. -/
def c7State : DocState :=
  { input_text := "i", slides := "",
    enriched_slides := "<slides><secone>S1</secone><sectwo>S2</sectwo></slides>",
    title := "<title>T</title>", quiz := "<quiz>Q</quiz>",
    image := some "<image>I</image>" }

theorem claim_C7_witness :
    assembleTree c7State =
      some (XML.elem "slides" ""
        [XML.elem "title" "T" [], XML.elem "image" "I" [],
         XML.elem "secone" "S1" [], XML.elem "sectwo" "S2" [],
         XML.elem "quiz" "Q" []]) :=
  claim_C7 c7State "<image>I</image>"
    (XML.elem "slides" "" [XML.elem "secone" "S1" [], XML.elem "sectwo" "S2" []])
    (XML.elem "title" "T" []) (XML.elem "image" "I" []) (XML.elem "quiz" "Q" [])
    rfl rfl rfl rfl rfl

/-- Claim C10: every non-empty string artifact returned by the image
discovery step is the markup-escaped wrap of one of the candidate links,
and it parses back as a well-formed image element even when the link
contains markup-special characters. -/
theorem claim_C10 (ports : Ports) (c : Counters) (st : DocState)
    (r : String) (c2 : Counters)
    (h : image_finder_agent ports c st = (some r, c2)) (hne : r ≠ "") :
    ∃ u, r = "<image>" ++ escape u ++ "</image>" ∧
      parseXML r = some (XML.elem "image" (escape u) []) := by
  unfold image_finder_agent at h
  by_cases hp : st.enriched_slides = ""
  · rw [if_pos hp] at h
    simp at h
    exact absurd h.1.symm hne
  · rw [if_neg hp] at h
    simp only [] at h
    rcases hsr : ports.search (ports.gen c.g) with _ | items
    · rw [hsr] at h
      simp at h
      exact absurd h.1.symm hne
    · rw [hsr] at h
      simp only [] at h
      rcases hfl : findImageLoop ports c.j items with ⟨r0, j1⟩
      rw [hfl] at h
      simp at h
      obtain ⟨h1, _⟩ := h
      rw [h1] at hfl
      obtain ⟨u, hu⟩ := findImageLoop_wrapped ports items c.j r j1 hfl
      exact ⟨u, hu, hu ▸ parse_image_wrapped u⟩

/-- Fixtures for the C10 witness: one acceptable candidate link containing
markup-special characters. -/
def c10Ports : Ports :=
  { gen := fun _ => "query", judge := fun _ => some "True",
    search := fun _ => some ["a&b<c"] }

def c10State : DocState :=
  { input_text := "i", slides := "", enriched_slides := "<slides></slides>",
    title := "", quiz := "", image := some "" }

/-- Claim C10, witness at a concrete input with special characters in the
accepted link. -/
theorem claim_C10_witness :
    ∃ u, "<image>a&amp;b&lt;c</image>" = "<image>" ++ escape u ++ "</image>" ∧
      parseXML "<image>a&amp;b&lt;c</image>" =
        some (XML.elem "image" (escape u) []) :=
  claim_C10 c10Ports ⟨0, 0⟩ c10State "<image>a&amp;b&lt;c</image>" ⟨1, 1⟩
    rfl (by decide)

/-- Claim C1: the loop iteration returns a final document only when the
decision is End process and all four required slots are non-empty (the
image slot compared against the empty string, as the source does), and
when the decision is End process with a missing artifact it stays in the
loop, leaving the state untouched and appending the corrective note of the
single highest-priority missing artifact in the fixed precedence order
enriched slides, title, image, quiz. -/
theorem claim_C1 (ports : Ports) (fuel : Nat) (ls : LoopSt) :
    (∀ doc, loop_step ports fuel ls = .ret doc →
      ports.gen ls.c.g = "End process" ∧ ls.state.enriched_slides ≠ "" ∧
        ls.state.title ≠ "" ∧ ls.state.image ≠ some "" ∧ ls.state.quiz ≠ "") ∧
    (ports.gen ls.c.g = "End process" →
      ∀ note,
        ((ls.state.enriched_slides = "" ∧
            note = "The presentation is not complete. Please finish enriched slides.") ∨
          (ls.state.enriched_slides ≠ "" ∧ ls.state.title = "" ∧
            note = "The presentation is not complete. Please finish the title.") ∨
          (ls.state.enriched_slides ≠ "" ∧ ls.state.title ≠ "" ∧
            ls.state.image = some "" ∧
            note = "The presentation is not complete. Please find an image.") ∨
          (ls.state.enriched_slides ≠ "" ∧ ls.state.title ≠ "" ∧
            ls.state.image ≠ some "" ∧ ls.state.quiz = "" ∧
            note = "The presentation is not complete. Please create a quiz.")) →
        loop_step ports fuel ls =
          .next { ls with
                  memory := ls.memory ++ [⟨"user", some note⟩],
                  c := ⟨ls.c.g + 1, ls.c.j⟩ }) := by
  constructor
  · intro doc h
    unfold loop_step orchestrator_agent at h
    simp only [] at h
    by_cases hd : ports.gen ls.c.g = "End process"
    · rw [if_pos hd] at h
      by_cases hc : ls.state.enriched_slides = "" ∨ ls.state.title = "" ∨
          ls.state.image = some "" ∨ ls.state.quiz = ""
      · rw [if_pos hc] at h
        simp at h
      · rw [if_neg hc] at h
        push_neg at hc
        exact ⟨hd, hc.1, hc.2.1, hc.2.2.1, hc.2.2.2⟩
    · exfalso
      rw [if_neg hd] at h
      by_cases h1 : ports.gen ls.c.g = "Slide creator"
      · rw [if_pos h1] at h
        rcases hx : slide_creator_agent ports fuel ⟨ls.c.g + 1, ls.c.j⟩ ls.state
          with _ | ⟨r, c2⟩ <;> rw [hx] at h <;> simp at h
      · rw [if_neg h1] at h
        by_cases h2 : ports.gen ls.c.g = "Slide enricher"
        · rw [if_pos h2] at h
          rcases hx : slide_enricher_agent ports fuel ⟨ls.c.g + 1, ls.c.j⟩ ls.state
            with _ | _ | ⟨r, c2⟩ <;> rw [hx] at h <;> simp at h
        · rw [if_neg h2] at h
          by_cases h3 : ports.gen ls.c.g = "Quiz creator"
          · rw [if_pos h3] at h
            rcases hx : quiz_creator_agent ports ⟨ls.c.g + 1, ls.c.j⟩ ls.state
              with ⟨r, c2⟩
            rw [hx] at h
            simp only [] at h
            by_cases hr : r = ""
            · rw [if_pos hr] at h
              simp at h
            · rw [if_neg hr] at h
              simp at h
          · rw [if_neg h3] at h
            by_cases h4 : ports.gen ls.c.g = "Title creator"
            · rw [if_pos h4] at h
              rcases hx : title_creator_agent ports ⟨ls.c.g + 1, ls.c.j⟩ ls.state
                with ⟨r, c2⟩
              rw [hx] at h
              simp only [] at h
              by_cases hr : r = ""
              · rw [if_pos hr] at h
                simp at h
              · rw [if_neg hr] at h
                simp at h
            · rw [if_neg h4] at h
              by_cases h5 : ports.gen ls.c.g = "Image finder"
              · rw [if_pos h5] at h
                rcases hx : image_finder_agent ports ⟨ls.c.g + 1, ls.c.j⟩ ls.state
                  with ⟨r, c2⟩
                rw [hx] at h
                simp only [] at h
                by_cases hr : r = some ""
                · rw [if_pos hr] at h
                  simp at h
                · rw [if_neg hr] at h
                  simp at h
              · rw [if_neg h5] at h
                rcases hx : ls.response with _ | r <;> rw [hx] at h <;> simp at h
  · intro hd note hcase
    unfold loop_step orchestrator_agent
    simp only []
    rw [if_pos hd]
    rcases hcase with ⟨he, hn⟩ | ⟨he, ht, hn⟩ | ⟨he, ht, hi, hn⟩ | ⟨he, ht, hi, hq, hn⟩
    · rw [if_pos (Or.inl he), if_pos he]
      rw [hn]
    · rw [if_pos (Or.inr (Or.inl ht)), if_neg he, if_pos ht]
      rw [hn]
    · rw [if_pos (Or.inr (Or.inr (Or.inl hi))), if_neg he, if_neg ht, if_pos hi]
      rw [hn]
    · rw [if_pos (Or.inr (Or.inr (Or.inr hq))), if_neg he, if_neg ht, if_neg hi]
      rw [hn]

/-- Fixtures for the C1 witness. -/
def c1wPorts : Ports :=
  { gen := fun _ => "End process", judge := fun _ => none,
    search := fun _ => none }

def c1wLS : LoopSt :=
  { state := get_initial_state "w", memory := [], response := none,
    c := ⟨0, 0⟩ }

/-- Claim C1, witness: on the initial state an End process decision stays
in the loop and appends the enriched-slides corrective note. -/
theorem claim_C1_witness :
    loop_step c1wPorts 1 c1wLS =
      .next { c1wLS with
              memory := [⟨"user",
                some "The presentation is not complete. Please finish enriched slides."⟩],
              c := ⟨1, 0⟩ } :=
  (claim_C1 c1wPorts 1 c1wLS).2 rfl
    "The presentation is not complete. Please finish enriched slides."
    (Or.inl ⟨rfl, rfl⟩)

/-- Claim C5: with an empty enriched_slides slot, the title, quiz and
image steps return the empty artifact with the stream counters untouched
(so no service call is made; the result is the same for every Ports
value), and an orchestration-loop iteration dispatching to any of the
three leaves the whole state record unchanged. -/
theorem claim_C5 (ports : Ports) (fuel : Nat) (c : Counters) (st : DocState)
    (h : st.enriched_slides = "") :
    title_creator_agent ports c st = ("", c) ∧
    quiz_creator_agent ports c st = ("", c) ∧
    image_finder_agent ports c st = (some "", c) ∧
    (∀ ls : LoopSt, ls.state = st →
      (ports.gen ls.c.g = "Title creator" ∨ ports.gen ls.c.g = "Quiz creator" ∨
        ports.gen ls.c.g = "Image finder") →
      ∃ ls1, loop_step ports fuel ls = .next ls1 ∧ ls1.state = ls.state) := by
  have hta : ∀ c' : Counters, title_creator_agent ports c' st = ("", c') := by
    intro c'
    unfold title_creator_agent
    rw [if_pos h]
  have hqa : ∀ c' : Counters, quiz_creator_agent ports c' st = ("", c') := by
    intro c'
    unfold quiz_creator_agent
    rw [if_pos h]
  have hia : ∀ c' : Counters, image_finder_agent ports c' st = (some "", c') := by
    intro c'
    unfold image_finder_agent
    rw [if_pos h]
  refine ⟨hta c, hqa c, hia c, ?_⟩
  intro ls hst hd
  rcases hd with hd | hd | hd
  · refine ⟨{ ls with
        memory := ls.memory ++ [⟨"assistant",
          some "Title creator failed to generate a title. Please create enriched slides first."⟩],
        response := some
          (some "Title creator failed to generate a title. Please create enriched slides first."),
        c := ⟨ls.c.g + 1, ls.c.j⟩ }, ?_, rfl⟩
    unfold loop_step orchestrator_agent
    simp only []
    rw [if_neg (by rw [hd]; decide), if_neg (by rw [hd]; decide),
      if_neg (by rw [hd]; decide), if_neg (by rw [hd]; decide), if_pos hd,
      hst, hta ⟨ls.c.g + 1, ls.c.j⟩]
    rfl
  · refine ⟨{ ls with
        memory := ls.memory ++ [⟨"assistant",
          some "Quiz creator failed to generate a quiz. Please create enriched slides first."⟩],
        response := some
          (some "Quiz creator failed to generate a quiz. Please create enriched slides first."),
        c := ⟨ls.c.g + 1, ls.c.j⟩ }, ?_, rfl⟩
    unfold loop_step orchestrator_agent
    simp only []
    rw [if_neg (by rw [hd]; decide), if_neg (by rw [hd]; decide),
      if_neg (by rw [hd]; decide), if_pos hd, hst, hqa ⟨ls.c.g + 1, ls.c.j⟩]
    rfl
  · refine ⟨{ ls with
        memory := ls.memory ++ [⟨"assistant",
          some "Image finder failed to find an image. Please create enriched slides first."⟩],
        response := some
          (some "Image finder failed to find an image. Please create enriched slides first."),
        c := ⟨ls.c.g + 1, ls.c.j⟩ }, ?_, rfl⟩
    unfold loop_step orchestrator_agent
    simp only []
    rw [if_neg (by rw [hd]; decide), if_neg (by rw [hd]; decide),
      if_neg (by rw [hd]; decide), if_neg (by rw [hd]; decide),
      if_neg (by rw [hd]; decide), if_pos hd, hst, hia ⟨ls.c.g + 1, ls.c.j⟩]
    rfl

/-- Claim C5, witness at a concrete input. -/
theorem claim_C5_witness :
    title_creator_agent silentPorts ⟨0, 0⟩ (get_initial_state "w") = ("", ⟨0, 0⟩) :=
  (claim_C5 silentPorts 1 ⟨0, 0⟩ (get_initial_state "w") rfl).1

/-- Claim C9, amended: a decision matching none of the six recognized
names aborts the build only when no recognized agent has yet run in this
build (the response variable of the loop is still unbound, so the shared
memory append raises NameError, which the surrounding handler turns into a
break); once any agent has run, the unrecognized decision is silently
absorbed: the loop appends the stale previous response to memory and
continues with the state unchanged. -/
theorem claim_C9_amended (ports : Ports) (fuel : Nat) (ls : LoopSt)
    (h1 : ports.gen ls.c.g ≠ "End process")
    (h2 : ports.gen ls.c.g ≠ "Slide creator")
    (h3 : ports.gen ls.c.g ≠ "Slide enricher")
    (h4 : ports.gen ls.c.g ≠ "Quiz creator")
    (h5 : ports.gen ls.c.g ≠ "Title creator")
    (h6 : ports.gen ls.c.g ≠ "Image finder") :
    (ls.response = none → loop_step ports fuel ls = .halt) ∧
    (∀ r, ls.response = some r →
      loop_step ports fuel ls =
        .next { ls with
                memory := ls.memory ++ [⟨"assistant", r⟩],
                c := ⟨ls.c.g + 1, ls.c.j⟩ }) := by
  constructor
  · intro hr
    unfold loop_step orchestrator_agent
    simp only []
    rw [if_neg h1, if_neg h2, if_neg h3, if_neg h4, if_neg h5, if_neg h6, hr]
  · intro r hr
    unfold loop_step orchestrator_agent
    simp only []
    rw [if_neg h1, if_neg h2, if_neg h3, if_neg h4, if_neg h5, if_neg h6, hr]

/-- Fixture for the C9 witness: an unrecognized decision on the very first
iteration, before any agent has run. -/
def c9wPorts : Ports :=
  { gen := fun _ => "banana", judge := fun _ => none, search := fun _ => none }

/-- Claim C9, witness: with the response variable still unbound, the
unrecognized decision aborts the loop. -/
theorem claim_C9_witness :
    loop_step c9wPorts 1
      { state := get_initial_state "w", memory := [], response := none,
        c := ⟨0, 0⟩ } = .halt :=
  (claim_C9_amended c9wPorts 1
    { state := get_initial_state "w", memory := [], response := none,
      c := ⟨0, 0⟩ }
    (by decide) (by decide) (by decide) (by decide) (by decide) (by decide)).1 rfl

/-- Fixtures for the C9 counterexample: a full build in which the
controller answers with the unrecognized decision banana on the second
iteration, after the slide creator has run, and the build nevertheless
finishes and returns a document. -/
def c9Slides : String :=
  "<slides><slide><title>A</title><content>c</content></slide></slides>"

def c9Enr : String := "<slide><title>A</title><paragraph>p</paragraph></slide>"

def c9QuizStr : String :=
  "<quiz><question><question_text>q</question_text><answer>a</answer></question></quiz>"

def c9Gen : Nat → String
  | 0 => "Slide creator"
  | 1 => c9Slides
  | 2 => "banana"
  | 3 => "Slide enricher"
  | 4 => c9Enr
  | 5 => "Title creator"
  | 6 => "<title>T</title>"
  | 7 => "Quiz creator"
  | 8 => c9QuizStr
  | 9 => "Image finder"
  | 10 => "qry"
  | 11 => "End process"
  | _ => ""

def c9Ports : Ports :=
  { gen := c9Gen, judge := fun _ => some "True",
    search := fun q => if q = "qry" then some ["u"] else none }

def c9LS0 : LoopSt :=
  { state := get_initial_state "seed", memory := [], response := none,
    c := ⟨0, 0⟩ }

def c9LS1 : LoopSt :=
  { state := { get_initial_state "seed" with slides := c9Slides },
    memory := [⟨"assistant", some c9Slides⟩],
    response := some (some c9Slides), c := ⟨2, 0⟩ }

def c9LS2 : LoopSt :=
  { c9LS1 with
    memory := c9LS1.memory ++ [⟨"assistant", some c9Slides⟩],
    c := ⟨3, 0⟩ }

def c9Doc : String :=
  "<slides><title>T</title><image>u</image><slide><title>A</title><paragraph>p</paragraph></slide><quiz><question><question_text>q</question_text><answer>a</answer></question></quiz></slides>"

/-- Claim C9 is false as stated: c9LS1 is the loop state reached after one
iteration; there the controller decision is banana, which matches none of
the six recognized names, yet the iteration does not abort (it appends the
stale response and continues), and the build goes on to return a
document. -/
theorem claim_C9_counterexample :
    loop_step c9Ports 3 c9LS0 = .next c9LS1 ∧
    c9Ports.gen c9LS1.c.g = "banana" ∧
    ("banana" ≠ "Slide creator" ∧ "banana" ≠ "Slide enricher" ∧
      "banana" ≠ "Title creator" ∧ "banana" ≠ "Quiz creator" ∧
      "banana" ≠ "Image finder" ∧ ("banana" : String) ≠ "End process") ∧
    loop_step c9Ports 3 c9LS1 = .next c9LS2 ∧
    runLoop c9Ports 3 6 c9LS2 = .doc c9Doc :=
  ⟨rfl, rfl, by decide, rfl, rfl⟩
